import Mathlib

/-!
Shallow embedding of the data-access and credit-metering layer of
ContentCompass (src/app.py).

The embedded pieces are: the session state (mode, api key, credits counter,
cache dict, enabled-endpoints dict, and the durable snapshot file), the cache
fingerprint built by get_data from the endpoint name and the sorted JSON dump
of the keyword arguments, the VirloAPI wrapper methods (which add the
endpoint's credit cost and then issue the request), get_data itself, the
demo-file reader load_demo, save_cache_to_file, and the settings/sidebar
actions that switch mode, clear the cache, and refresh (invalidate) data.

Network responses and the demo-file filesystem are passed in explicitly as
oracles: a remote call's outcome is an `Option Payload` (`none` models a
requests.RequestException - timeout, transport error, or non-2xx raised by
raise_for_status - and `some p` a 2xx response with JSON body `p`), and the
filesystem maps a filename to `none` (absent), `some none` (present but
unreadable or not valid JSON, so json.load raises), or `some (some p)`.
Each executed remote request is recorded in a call trace by its category
name, and each rewrite of the durable snapshot file bumps a write counter,
so that charging, fetching, and persistence effects are all observable.
-/

/-- Primitive JSON values appearing as request parameters and as the opaque
records inside payloads. -/
inductive JVal where
  | jnum : Int → JVal
  | jstr : String → JVal
  | jbool : Bool → JVal
deriving DecidableEq

/-- Normalized payload envelope: every payload app.py passes around is a dict
with a results count and a data list; the records themselves are opaque. -/
structure Payload where
  results : Int
  data : List JVal
deriving DecidableEq

/-- The empty normalized payload, the dict with results 0 and an empty data
list that app.py builds at every failure/short-circuit site. -/
def emptyPayload : Payload := ⟨0, []⟩

/-- st.session_state.mode, apart from the None (unset) case which is modelled
by wrapping in Option. -/
inductive Mode where
  | demo : Mode
  | live : Mode
deriving DecidableEq

/-- The durable snapshot written by save_cache_to_file: the cache mapping and
the credits counter (the weekly plan, brief and timestamp it also stores are
irrelevant to the claims and omitted). -/
structure Snapshot where
  cache : List (String × Payload)
  credits_used : Int
deriving DecidableEq

/-- The session state of app.py that the data-access layer reads and writes.
`snapshot` is the current content of the durable cache file and `writes`
counts how many times save_cache_to_file has rewritten it, so the claims can
observe whether a step persisted. Python dicts are insertion-ordered
association lists here. -/
structure AppState where
  mode : Option Mode
  virlo_api_key : Option String
  credits_used : Int
  cache : List (String × Payload)
  enabled_endpoints : List (String × Bool)
  snapshot : Option Snapshot
  writes : Nat
deriving DecidableEq

/-- Keyword arguments of a get_data call, in caller insertion order. -/
def Params : Type := List (String × JVal)

/-- Python dict lookup d.get(k) on an insertion-ordered association list. -/
def alookup {α : Type} (k : String) : List (String × α) → Option α
  | [] => none
  | kv :: rest => if kv.1 = k then some kv.2 else alookup k rest

/-- Python dict assignment d[k] = v: overwrite in place if the key exists,
else append at the end. -/
def ainsert {α : Type} (k : String) (v : α) : List (String × α) → List (String × α)
  | [] => [(k, v)]
  | kv :: rest => if kv.1 = k then (k, v) :: rest else kv :: ainsert k v rest

/-- Python truthiness of st.session_state.virlo_api_key: None and the empty
string are falsy. -/
def keyTruthy : Option String → Bool
  | none => false
  | some s => !(s = "")

/-- st.session_state.enabled_endpoints.get(endpoint, True). -/
def enabledOf (st : AppState) (endpoint : String) : Bool :=
  (alookup endpoint st.enabled_endpoints).getD true

/-- CREDIT_COSTS table of app.py. -/
def CREDIT_COSTS : List (String × Int) := [("trends", 1000), ("hashtags", 10), ("videos", 100)]

/-- CREDIT_COSTS[endpoint] (only ever read at the three present keys). -/
def costOf (endpoint : String) : Int := (alookup endpoint CREDIT_COSTS).getD 0

/-- json.dumps of one primitive value (string escaping is not modelled; the
parameter strings in play contain no characters needing escapes). -/
def dumpVal : JVal → String
  | .jnum n => toString n
  | .jstr s => "\"" ++ s ++ "\""
  | .jbool b => cond b "true" "false"

/-- The comma-separated body of a json.dumps object dump. -/
def dumpPairs : List (String × JVal) → String
  | [] => ""
  | [kv] => "\"" ++ kv.1 ++ "\": " ++ dumpVal kv.2
  | kv :: rest => "\"" ++ kv.1 ++ "\": " ++ dumpVal kv.2 ++ ", " ++ dumpPairs rest

/-- json.dumps of an object with the given pairs in the given order. -/
def dumps (ps : List (String × JVal)) : String := "\x7b" ++ dumpPairs ps ++ "\x7d"

/-- Key order used by json.dumps(kwargs, sort_keys=True). -/
def keyLE (a b : String × JVal) : Prop := a.1 ≤ b.1

instance : DecidableRel keyLE := fun a b => inferInstanceAs (Decidable (a.1 ≤ b.1))

instance : IsTotal (String × JVal) keyLE := ⟨fun a b => le_total a.1 b.1⟩

instance : IsTrans (String × JVal) keyLE := ⟨fun _ _ _ h1 h2 => le_trans h1 h2⟩

/-- The key-sorted pair list that json.dumps(kwargs, sort_keys=True)
serializes (Python's sort is stable, and on the duplicate-free keys of a dict
any key sort produces the same list). -/
def sortPairs (ps : List (String × JVal)) : List (String × JVal) :=
  List.insertionSort keyLE ps

/-- The cache key computed at the top of get_data:
f"{endpoint}_{json.dumps(kwargs, sort_keys=True)}". -/
def fingerprint (endpoint : String) (kwargs : Params) : String :=
  endpoint ++ "_" ++ dumps (sortPairs kwargs)

/-- needle is a prefix of hay (on character lists). -/
def listStarts : List Char → List Char → Bool
  | [], _ => true
  | _ :: _, [] => false
  | a :: as, b :: bs => a = b && listStarts as bs

/-- needle occurs as a contiguous run inside hay (on character lists). -/
def listSub (needle : List Char) : List Char → Bool
  | [] => needle.isEmpty
  | c :: rest => listStarts needle (c :: rest) || listSub needle rest

/-- Python's `needle in hay` substring test on strings. -/
def strContains (hay needle : String) : Bool := listSub needle.data hay.data

/-- Filesystem oracle for the demo data files: absent, present but unreadable
or invalid JSON (json.load raises), or present with parsed content. -/
def FS : Type := String → Option (Option Payload)

/-- load_demo of app.py: if the file exists, open and json.load it (an
unreadable or invalid file makes json.load raise, modelled as `.error`);
otherwise return the empty normalized payload. -/
def load_demo (fs : FS) (filename : String) : Except String Payload :=
  match fs filename with
  | some (some d) => .ok d
  | some none => .error "json decode error"
  | none => .ok emptyPayload

/-- save_cache_to_file of app.py: rewrite the whole durable snapshot from the
in-memory state (the success path; a failed write is swallowed by the
surrounding try/except and is not modelled). -/
def save_cache_to_file (st : AppState) : AppState :=
  { st with snapshot := some ⟨st.cache, st.credits_used⟩, writes := st.writes + 1 }

/-- VirloAPI._get: issue the request; on requests.RequestException show the
error and return the empty payload, otherwise return the response body. -/
def virlo_get (resp : Option Payload) : Payload :=
  match resp with
  | some p => p
  | none => emptyPayload

/-- VirloAPI.get_trends_digest: add CREDIT_COSTS["trends"] to
st.session_state.credits_used, then GET /trends/digest. The executed remote
request is recorded in the call trace under its category name. -/
def get_trends_digest (st : AppState) (resp : Option Payload) :
    AppState × Payload × List String :=
  ({ st with credits_used := st.credits_used + costOf "trends" }, virlo_get resp, ["trends"])

/-- VirloAPI.get_hashtags: add CREDIT_COSTS["hashtags"], then GET /hashtags.
The date range, limit and ordering only shape the outbound query string and
do not affect the modelled state or the oracle response. -/
def get_hashtags (st : AppState) (resp : Option Payload) :
    AppState × Payload × List String :=
  ({ st with credits_used := st.credits_used + costOf "hashtags" }, virlo_get resp, ["hashtags"])

/-- VirloAPI.get_videos_digest: add CREDIT_COSTS["videos"], then GET
/videos/digest. -/
def get_videos_digest (st : AppState) (resp : Option Payload) :
    AppState × Payload × List String :=
  ({ st with credits_used := st.credits_used + costOf "videos" }, virlo_get resp, ["videos"])

/-- The endpoint dispatch of get_data's live branch: known endpoints call the
corresponding VirloAPI method, an unknown endpoint yields the empty payload
without any remote call or charge. -/
def liveFetch (st : AppState) (endpoint : String) (resp : Option Payload) :
    AppState × Payload × List String :=
  if endpoint = "trends" then get_trends_digest st resp
  else if endpoint = "hashtags" then get_hashtags st resp
  else if endpoint = "videos" then get_videos_digest st resp
  else (st, emptyPayload, [])

/-- files.get(endpoint, "trends.json") in get_data's offline branch. -/
def demoFile (endpoint : String) : String :=
  if endpoint = "trends" then "trends.json"
  else if endpoint = "hashtags" then "hashtags.json"
  else if endpoint = "videos" then "videos.json"
  else "trends.json"

/-- Outcome of one get_data call: the session state after the call, the
returned payload, and the category names of the remote requests it issued. -/
structure AccessResult where
  st : AppState
  ret : Payload
  calls : List String
deriving DecidableEq

/-- The body of get_data after the cache-hit early return: the
enabled_endpoints gate, then either the live branch (fetch, cache the result,
save_cache_to_file) or the offline branch (load_demo, cache the result, no
save). An exception raised by json.load in load_demo propagates before any
state mutation. -/
def get_data_miss (st : AppState) (endpoint : String) (cache_key : String)
    (resp : Option Payload) (fs : FS) : Except String AccessResult :=
  if enabledOf st endpoint = false then
    .ok ⟨st, emptyPayload, []⟩
  else if st.mode = some Mode.live ∧ keyTruthy st.virlo_api_key = true then
    let r := liveFetch st endpoint resp
    .ok ⟨save_cache_to_file { r.1 with cache := ainsert cache_key r.2.1 r.1.cache },
      r.2.1, r.2.2⟩
  else
    match load_demo fs (demoFile endpoint) with
    | .ok d => .ok ⟨{ st with cache := ainsert cache_key d st.cache }, d, []⟩
    | .error e => .error e

/-- get_data of app.py: compute the cache key, return the cached entry when
force_refresh is false and the key is present, otherwise fall through to the
gate/fetch body. -/
def get_data (st : AppState) (endpoint : String) (kwargs : Params)
    (force_refresh : Bool) (resp : Option Payload) (fs : FS) :
    Except String AccessResult :=
  let cache_key := fingerprint endpoint kwargs
  match alookup cache_key st.cache with
  | some cached =>
    if force_refresh then get_data_miss st endpoint cache_key resp fs
    else .ok ⟨st, cached, []⟩
  | none => get_data_miss st endpoint cache_key resp fs

/-- "Switch to Demo" in show_settings: set mode to demo, drop the key, clear
the cache, save. credits_used is not touched. -/
def switch_to_demo (st : AppState) : AppState :=
  save_cache_to_file { st with mode := some Mode.demo, virlo_api_key := none, cache := [] }

/-- "Go Live" in show_settings: set mode to live with the new key, clear the
cache, save. credits_used is not touched. -/
def go_live (st : AppState) (key : String) : AppState :=
  save_cache_to_file { st with mode := some Mode.live, virlo_api_key := some key, cache := [] }

/-- "Go Live" in the sidebar of main (and "Connect & Go Live" in
show_welcome): same mutation but without save_cache_to_file. -/
def sidebar_go_live (st : AppState) (key : String) : AppState :=
  { st with mode := some Mode.live, virlo_api_key := some key, cache := [] }

/-- "Clear Cache" in show_settings (the weekly plan and brief it also clears
are not modelled). -/
def clear_cache (st : AppState) : AppState :=
  save_cache_to_file { st with cache := [] }

/-- Python str.lower() on the ASCII strings in play (the refresh targets of
the sidebar selectbox), character by character. -/
def strLower (s : String) : String := ⟨s.data.map Char.toLower⟩

/-- "Refresh Data" in the sidebar of main: "All Data" clears the whole cache;
otherwise every cache key that contains the lowercased target as a substring
is deleted. Then save_cache_to_file. -/
def refresh_data (st : AppState) (target : String) : AppState :=
  if target = "All Data" then save_cache_to_file { st with cache := [] }
  else
    save_cache_to_file
      { st with cache := st.cache.filter (fun kv => !(strContains kv.1 (strLower target))) }

/-- One user-level operation on the session state. Each access carries its
own network and filesystem oracles. -/
inductive Op where
  | access (endpoint : String) (kwargs : Params) (force_refresh : Bool)
      (resp : Option Payload) (fs : FS)
  | refreshData (target : String)
  | clearCache
  | switchDemo
  | goLive (key : String)

/-- Apply one operation, returning the new state and the category names of
the remote requests the operation executed. -/
def applyOp (st : AppState) : Op → Except String (AppState × List String)
  | .access e k fr resp fs =>
    match get_data st e k fr resp fs with
    | .ok a => .ok (a.st, a.calls)
    | .error err => .error err
  | .refreshData t => .ok (refresh_data st t, [])
  | .clearCache => .ok (clear_cache st, [])
  | .switchDemo => .ok (switch_to_demo st, [])
  | .goLive key => .ok (go_live st key, [])

/-- Run a sequence of operations, accumulating the remote-call trace. An
uncaught exception (a raising json.load in an offline read, which occurs
before any state mutation of that step) aborts the run with the state
reached so far. -/
def runOps (st : AppState) : List Op → AppState × List String
  | [] => (st, [])
  | op :: rest =>
    match applyOp st op with
    | .ok (st', cs) =>
      let r := runOps st' rest
      (r.1, cs ++ r.2)
    | .error _ => (st, [])

/-- Sum of the fixed credit costs of a remote-call trace. -/
def sumCosts (calls : List String) : Int := (calls.map costOf).sum

/-! ### Dictionary and get_data structural lemmas -/

theorem alookup_ainsert_self {α : Type} (k : String) (v : α) (l : List (String × α)) :
    alookup k (ainsert k v l) = some v := by
  induction l with
  | nil => simp [ainsert, alookup]
  | cons kv rest ih =>
    by_cases h : kv.1 = k
    · simp [ainsert, h, alookup]
    · simp [ainsert, h, alookup, ih]

theorem get_data_eq_hit {st : AppState} {e : String} {kw : Params} {d : Payload}
    {resp : Option Payload} {fs : FS}
    (h : alookup (fingerprint e kw) st.cache = some d) :
    get_data st e kw false resp fs = .ok ⟨st, d, []⟩ := by
  simp [get_data, h]

theorem get_data_eq_miss_none {st : AppState} {e : String} {kw : Params} {fr : Bool}
    {resp : Option Payload} {fs : FS}
    (h : alookup (fingerprint e kw) st.cache = none) :
    get_data st e kw fr resp fs = get_data_miss st e (fingerprint e kw) resp fs := by
  simp [get_data, h]

theorem get_data_eq_miss_force {st : AppState} {e : String} {kw : Params}
    {resp : Option Payload} {fs : FS} :
    get_data st e kw true resp fs = get_data_miss st e (fingerprint e kw) resp fs := by
  cases hl : alookup (fingerprint e kw) st.cache <;> simp [get_data, hl]

theorem get_data_miss_gated {st : AppState} {e ck : String}
    {resp : Option Payload} {fs : FS} (h : enabledOf st e = false) :
    get_data_miss st e ck resp fs = .ok ⟨st, emptyPayload, []⟩ := by
  simp [get_data_miss, h]

theorem get_data_miss_live {st : AppState} {e ck : String}
    {resp : Option Payload} {fs : FS}
    (h1 : enabledOf st e = true) (h2 : st.mode = some Mode.live)
    (h3 : keyTruthy st.virlo_api_key = true) :
    get_data_miss st e ck resp fs =
      .ok ⟨save_cache_to_file
            { (liveFetch st e resp).1 with
              cache := ainsert ck (liveFetch st e resp).2.1 (liveFetch st e resp).1.cache },
          (liveFetch st e resp).2.1, (liveFetch st e resp).2.2⟩ := by
  unfold get_data_miss
  rw [if_neg (by simp [h1]), if_pos ⟨h2, h3⟩]

theorem get_data_miss_offline {st : AppState} {e ck : String}
    {resp : Option Payload} {fs : FS} {d : Payload}
    (h1 : enabledOf st e = true)
    (h2 : ¬(st.mode = some Mode.live ∧ keyTruthy st.virlo_api_key = true))
    (h3 : load_demo fs (demoFile e) = .ok d) :
    get_data_miss st e ck resp fs =
      .ok ⟨{ st with cache := ainsert ck d st.cache }, d, []⟩ := by
  unfold get_data_miss
  rw [if_neg (by simp [h1]), if_neg h2, h3]

/-! ### The fingerprint is insensitive to parameter insertion order (C6) -/

/-- Strict key order on parameter pairs. -/
def keyLT (a b : String × JVal) : Prop := a.1 < b.1

instance : IsAntisymm (String × JVal) keyLT :=
  ⟨fun _ _ h1 h2 => absurd (lt_trans h1 h2) (lt_irrefl _)⟩

theorem sortPairs_perm (ps : List (String × JVal)) : List.Perm (sortPairs ps) ps :=
  List.perm_insertionSort keyLE ps

theorem sortPairs_sorted (ps : List (String × JVal)) : (sortPairs ps).Pairwise keyLE :=
  List.sorted_insertionSort keyLE ps

theorem pairwise_keyLT_of_nodup {l : List (String × JVal)}
    (hs : l.Pairwise keyLE) (hn : (l.map Prod.fst).Nodup) : l.Pairwise keyLT := by
  have hne : l.Pairwise (fun a b => a.1 ≠ b.1) := List.pairwise_map.mp hn
  exact (hs.and hne).imp (fun h => lt_of_le_of_ne h.1 h.2)

theorem sortPairs_eq_of_perm {p1 p2 : List (String × JVal)}
    (hperm : List.Perm p1 p2) (hnd : (p1.map Prod.fst).Nodup) :
    sortPairs p1 = sortPairs p2 := by
  have perm1 := sortPairs_perm p1
  have perm2 := sortPairs_perm p2
  have hnd1 : ((sortPairs p1).map Prod.fst).Nodup :=
    ((perm1.map Prod.fst).nodup_iff).mpr hnd
  have hnd2 : ((sortPairs p2).map Prod.fst).Nodup :=
    ((perm2.map Prod.fst).nodup_iff).mpr (((hperm.map Prod.fst).nodup_iff).mp hnd)
  exact List.eq_of_perm_of_sorted (perm1.trans (hperm.trans perm2.symm))
    (pairwise_keyLT_of_nodup (sortPairs_sorted p1) hnd1)
    (pairwise_keyLT_of_nodup (sortPairs_sorted p2) hnd2)

/-- C6: for every category and every two parameter mappings with the same
key/value pairs in any insertion order (a mapping has duplicate-free keys),
the computed cache fingerprint is the same. -/
theorem claim_c6_fingerprint_order_insensitive (c : String) (p1 p2 : Params)
    (hperm : List.Perm p1 p2) (hnd : (List.map Prod.fst p1).Nodup) :
    fingerprint c p1 = fingerprint c p2 := by
  unfold fingerprint
  rw [sortPairs_eq_of_perm hperm hnd]

/-- Concrete parameter list in one insertion order. -/
def p6a : Params := [("order_by", JVal.jstr "views"), ("limit", JVal.jnum 50)]

/-- The same key/value pairs in the other insertion order. -/
def p6b : Params := [("limit", JVal.jnum 50), ("order_by", JVal.jstr "views")]

/-- Witness for C6 at a concrete input. -/
theorem claim_c6_witness :
    List.Perm p6a p6b ∧ (List.map Prod.fst p6a).Nodup ∧
      fingerprint "hashtags" p6a = fingerprint "hashtags" p6b :=
  ⟨by decide, by decide,
    claim_c6_fingerprint_order_insensitive "hashtags" p6a p6b (by decide) (by decide)⟩

/-! ### Credit accounting (C1) -/

theorem save_credits (st : AppState) :
    (save_cache_to_file st).credits_used = st.credits_used := rfl

theorem liveFetch_credits (st : AppState) (e : String) (resp : Option Payload) :
    (liveFetch st e resp).1.credits_used =
      st.credits_used + sumCosts (liveFetch st e resp).2.2 := by
  unfold liveFetch
  split_ifs with h1 h2 h3 <;>
    simp [get_trends_digest, get_hashtags, get_videos_digest, sumCosts]

theorem get_data_miss_ok_credits {st : AppState} {e ck : String}
    {resp : Option Payload} {fs : FS} {a : AccessResult}
    (h : get_data_miss st e ck resp fs = .ok a) :
    a.st.credits_used = st.credits_used + sumCosts a.calls := by
  unfold get_data_miss at h
  split_ifs at h with h1 h2
  · cases h
    simp [sumCosts]
  · cases h
    simpa [save_cache_to_file] using liveFetch_credits st e resp
  · cases hld : load_demo fs (demoFile e) with
    | ok d => rw [hld] at h; cases h; simp [sumCosts]
    | error err => rw [hld] at h; cases h

theorem get_data_ok_credits {st : AppState} {e : String} {kw : Params} {fr : Bool}
    {resp : Option Payload} {fs : FS} {a : AccessResult}
    (h : get_data st e kw fr resp fs = .ok a) :
    a.st.credits_used = st.credits_used + sumCosts a.calls := by
  simp only [get_data] at h
  cases hl : alookup (fingerprint e kw) st.cache with
  | some cached =>
    rw [hl] at h
    cases fr with
    | true => exact get_data_miss_ok_credits h
    | false => cases h; simp [sumCosts]
  | none =>
    rw [hl] at h
    exact get_data_miss_ok_credits h

theorem applyOp_ok_credits {st st' : AppState} {op : Op} {cs : List String}
    (h : applyOp st op = .ok (st', cs)) :
    st'.credits_used = st.credits_used + sumCosts cs := by
  cases op with
  | access e k fr resp fs =>
    simp only [applyOp] at h
    cases hg : get_data st e k fr resp fs with
    | ok a =>
      rw [hg] at h
      cases h
      exact get_data_ok_credits hg
    | error err => rw [hg] at h; cases h
  | refreshData t =>
    cases h
    unfold refresh_data
    split_ifs <;> simp [save_cache_to_file, sumCosts]
  | clearCache => cases h; simp [clear_cache, save_cache_to_file, sumCosts]
  | switchDemo => cases h; simp [switch_to_demo, save_cache_to_file, sumCosts]
  | goLive key => cases h; simp [go_live, save_cache_to_file, sumCosts]

theorem runOps_credits (st : AppState) (ops : List Op) :
    (runOps st ops).1.credits_used = st.credits_used + sumCosts (runOps st ops).2 := by
  induction ops generalizing st with
  | nil => simp [runOps, sumCosts]
  | cons op rest ih =>
    cases hop : applyOp st op with
    | ok r =>
      have hstep : r.1.credits_used = st.credits_used + sumCosts r.2 :=
        applyOp_ok_credits (by rw [hop])
      simp only [runOps, hop]
      rw [ih r.1, hstep]
      unfold sumCosts
      rw [List.map_append, List.sum_append]
      ring
    | error err => simp [runOps, hop, sumCosts]

/-- C1: starting from a freshly reset usage counter, after any sequence of
operations the counter equals the sum of the fixed costs of the remote
fetches that actually executed in that sequence (the call trace records
exactly the executed remote requests); steps that are cache hits,
disabled-category short-circuits, or offline-source reads contribute no
calls and hence never change the counter. -/
theorem claim_c1_counter_equals_cost_of_executed_fetches
    (st : AppState) (ops : List Op) (h0 : st.credits_used = 0) :
    (runOps st ops).1.credits_used = sumCosts (runOps st ops).2 := by
  have := runOps_credits st ops
  rw [h0, zero_add] at this
  exact this

/-! ### Concrete fixtures -/

/-- Filesystem with no demo files. -/
def fsAbsent : FS := fun _ => none

/-- A nonempty concrete payload. -/
def payW : Payload := ⟨3, [JVal.jstr "rec1"]⟩

/-- Fresh live-mode session right after connecting. -/
def stW1 : AppState :=
  ⟨some Mode.live, some "vrl_key", 0, [],
    [("trends", true), ("hashtags", true), ("videos", true)], none, 0⟩

/-- Demo filesystem where every category file parses to payW. -/
def fsDemo : FS := fun _ => some (some payW)

/-- A mixed trace: a live fetch, a cache hit, a mode switch, an offline read. -/
def opsW1 : List Op :=
  [Op.access "trends" [] false (some payW) fsAbsent,
   Op.access "trends" [] false (some payW) fsAbsent,
   Op.switchDemo,
   Op.access "hashtags" [] false none fsDemo]

/-- Witness for C1: a concrete trace starting at a reset counter. -/
theorem claim_c1_witness :
    stW1.credits_used = 0 ∧
      (runOps stW1 opsW1).1.credits_used = sumCosts (runOps stW1 opsW1).2 :=
  ⟨rfl, claim_c1_counter_equals_cost_of_executed_fetches stW1 opsW1 rfl⟩

example : (runOps stW1 opsW1).2 = ["trends"] := rfl

example : (runOps stW1 opsW1).1.credits_used = 1000 := rfl

/-! ### C4: disabled category accesses are complete no-ops -/

/-- C4: on a category whose enabled flag is false, an access with no cached
entry returns the empty payload, performs no remote call, writes nothing, and
leaves the whole session state (counter included) unchanged, and therefore so
do arbitrarily many repeated accesses. -/
theorem claim_c4_disabled_category_noop
    (st : AppState) (e : String) (kw : Params) (resp : Option Payload) (fs : FS) (n : Nat)
    (hdis : alookup e st.enabled_endpoints = some false)
    (hmiss : alookup (fingerprint e kw) st.cache = none) :
    get_data st e kw false resp fs = .ok ⟨st, emptyPayload, []⟩ ∧
      runOps st (List.replicate n (Op.access e kw false resp fs)) = (st, []) := by
  have hen : enabledOf st e = false := by simp [enabledOf, hdis]
  have h1 : get_data st e kw false resp fs = .ok ⟨st, emptyPayload, []⟩ := by
    rw [get_data_eq_miss_none hmiss, get_data_miss_gated hen]
  refine ⟨h1, ?_⟩
  induction n with
  | zero => simp [runOps]
  | succ m ih =>
    rw [List.replicate_succ]
    simp only [runOps, applyOp, h1]
    rw [ih]
    rfl

/-- Session with the trends category disabled and a nonzero counter. -/
def stW4 : AppState :=
  ⟨some Mode.live, some "vrl_key", 7, [],
    [("trends", false), ("hashtags", true), ("videos", true)], none, 0⟩

/-- Witness for C4 at a concrete input, repeated three times. -/
theorem claim_c4_witness :
    alookup "trends" stW4.enabled_endpoints = some false ∧
      alookup (fingerprint "trends" []) stW4.cache = none ∧
      get_data stW4 "trends" [] false (some payW) fsAbsent = .ok ⟨stW4, emptyPayload, []⟩ ∧
      runOps stW4 (List.replicate 3 (Op.access "trends" [] false (some payW) fsAbsent)) =
        (stW4, []) :=
  ⟨rfl, rfl,
    (claim_c4_disabled_category_noop stW4 "trends" [] (some payW) fsAbsent 3 rfl rfl).1,
    (claim_c4_disabled_category_noop stW4 "trends" [] (some payW) fsAbsent 3 rfl rfl).2⟩

/-! ### C5: a LIVE or OFFLINE success is cached; identical re-access is free -/

theorem first_success_caches {st : AppState} {e : String} {kw : Params} {fr : Bool}
    {resp : Option Payload} {fs : FS} {a : AccessResult}
    (hen : enabledOf st e = true)
    (hmiss : fr = true ∨ alookup (fingerprint e kw) st.cache = none)
    (hget : get_data st e kw fr resp fs = .ok a) :
    alookup (fingerprint e kw) a.st.cache = some a.ret := by
  have hmiss' : get_data st e kw fr resp fs =
      get_data_miss st e (fingerprint e kw) resp fs := by
    rcases hmiss with hf | hn
    · subst hf; exact get_data_eq_miss_force
    · exact get_data_eq_miss_none hn
  rw [hmiss'] at hget
  unfold get_data_miss at hget
  rw [if_neg (by simp [hen])] at hget
  by_cases hlive : st.mode = some Mode.live ∧ keyTruthy st.virlo_api_key = true
  · rw [if_pos hlive] at hget
    injection hget with h2
    subst h2
    simp [save_cache_to_file, alookup_ainsert_self]
  · rw [if_neg hlive] at hget
    cases hld : load_demo fs (demoFile e) with
    | ok d0 =>
      rw [hld] at hget
      injection hget with h2
      subst h2
      simp [alookup_ainsert_self]
    | error err => rw [hld] at hget; cases hget

/-- Parameters of the C5 scenario: access("hashtags", limit=50). -/
def kw50 : Params := [("limit", JVal.jnum 50)]

/-- C5: after a first access that completed as a LIVE or OFFLINE success (the
category is enabled and the cache missed, so the result came from the remote
service or the offline source and was stored), a second access with identical
arguments and force_refresh false returns the stored result and leaves the
session state - the usage counter included - unchanged; and three
consecutive access("hashtags", limit=50) calls in Live mode with a
successful remote response execute exactly one remote call and leave the
counter at 10. -/
theorem claim_c5_repeat_access_cached_and_unmetered :
    (∀ (st : AppState) (e : String) (kw : Params) (fr : Bool)
        (resp resp2 : Option Payload) (fs fs2 : FS) (a : AccessResult),
      enabledOf st e = true →
      (fr = true ∨ alookup (fingerprint e kw) st.cache = none) →
      get_data st e kw fr resp fs = .ok a →
      get_data a.st e kw false resp2 fs2 = .ok ⟨a.st, a.ret, []⟩) ∧
    (∀ (st : AppState) (d : Payload) (fs : FS),
      st.mode = some Mode.live → keyTruthy st.virlo_api_key = true →
      enabledOf st "hashtags" = true →
      alookup (fingerprint "hashtags" kw50) st.cache = none →
      st.credits_used = 0 →
      (runOps st (List.replicate 3 (Op.access "hashtags" kw50 false (some d) fs))).2 =
          ["hashtags"] ∧
        (runOps st (List.replicate 3 (Op.access "hashtags" kw50 false (some d) fs))).1.credits_used =
          10) := by
  constructor
  · intro st e kw fr resp resp2 fs fs2 a hen hmiss hget
    exact get_data_eq_hit (first_success_caches hen hmiss hget)
  · intro st d fs hmode hkey hen hmiss hz
    have hfetch : liveFetch st "hashtags" (some d) =
        ({ st with credits_used := st.credits_used + costOf "hashtags" }, d, ["hashtags"]) := by
      simp [liveFetch, get_hashtags, virlo_get]
    have h1 : get_data st "hashtags" kw50 false (some d) fs =
        .ok ⟨save_cache_to_file
              { st with
                credits_used := st.credits_used + costOf "hashtags"
                cache := ainsert (fingerprint "hashtags" kw50) d st.cache },
            d, ["hashtags"]⟩ := by
      rw [get_data_eq_miss_none hmiss, get_data_miss_live hen hmode hkey, hfetch]
    set st1 : AppState :=
      save_cache_to_file
        { st with
          credits_used := st.credits_used + costOf "hashtags"
          cache := ainsert (fingerprint "hashtags" kw50) d st.cache } with hst1
    have hcached : alookup (fingerprint "hashtags" kw50) st1.cache = some d := by
      simp [hst1, save_cache_to_file, alookup_ainsert_self]
    have h2 : get_data st1 "hashtags" kw50 false (some d) fs = .ok ⟨st1, d, []⟩ :=
      get_data_eq_hit hcached
    have hrun : runOps st (List.replicate 3 (Op.access "hashtags" kw50 false (some d) fs)) =
        (st1, ["hashtags"]) := by
      simp only [List.replicate, runOps, applyOp, h1, h2]
      rfl
    rw [hrun]
    refine ⟨rfl, ?_⟩
    simp [hst1, save_cache_to_file, hz, costOf, alookup, CREDIT_COSTS]

/-- Session used by the C5 witness. -/
def stW5 : AppState :=
  ⟨some Mode.live, some "vrl_key", 0, [],
    [("trends", true), ("hashtags", true), ("videos", true)], none, 0⟩

/-- Concrete outcome of the first C5 access. -/
def gd5 : AccessResult :=
  match get_data stW5 "hashtags" kw50 false (some payW) fsAbsent with
  | .ok a => a
  | .error _ => ⟨stW5, emptyPayload, []⟩

/-- Witness for C5 at a concrete input. -/
theorem claim_c5_witness :
    enabledOf stW5 "hashtags" = true ∧
      alookup (fingerprint "hashtags" kw50) stW5.cache = none ∧
      get_data gd5.st "hashtags" kw50 false none fsAbsent = .ok ⟨gd5.st, gd5.ret, []⟩ ∧
      (runOps stW5 (List.replicate 3 (Op.access "hashtags" kw50 false (some payW) fsAbsent))).2 =
        ["hashtags"] ∧
      (runOps stW5
          (List.replicate 3 (Op.access "hashtags" kw50 false (some payW) fsAbsent))).1.credits_used =
        10 :=
  ⟨rfl, rfl,
    claim_c5_repeat_access_cached_and_unmetered.1 stW5 "hashtags" kw50 false (some payW) none
      fsAbsent fsAbsent gd5 rfl (Or.inr rfl) rfl,
    (claim_c5_repeat_access_cached_and_unmetered.2 stW5 payW fsAbsent rfl rfl rfl rfl rfl).1,
    (claim_c5_repeat_access_cached_and_unmetered.2 stW5 payW fsAbsent rfl rfl rfl rfl rfl).2⟩

/-! ### C2: a failed remote fetch is charged and cached (correction) -/

theorem liveFetch_known {st : AppState} {e : String} {resp : Option Payload}
    (he : e = "trends" ∨ e = "hashtags" ∨ e = "videos") :
    liveFetch st e resp =
      ({ st with credits_used := st.credits_used + costOf e }, virlo_get resp, [e]) := by
  rcases he with he | he | he <;> subst he <;>
    simp [liveFetch, get_trends_digest, get_hashtags, get_videos_digest]

/-- Amended C2: when the remote call for a known category fails (timeout,
transport error, or non-2xx status), the access still returns a payload with
zero records, but the usage counter increases by the category's fixed cost
(the charge happens before the fetch) and the empty failure payload IS stored
in the cache, so the next access with the same arguments is a cache hit that
replays the failure instead of retrying the network. -/
theorem claim_c2_failed_fetch_charged_and_cached
    (st : AppState) (e : String) (kw : Params) (fs : FS)
    (he : e = "trends" ∨ e = "hashtags" ∨ e = "videos")
    (hen : enabledOf st e = true)
    (hmode : st.mode = some Mode.live) (hkey : keyTruthy st.virlo_api_key = true)
    (hmiss : alookup (fingerprint e kw) st.cache = none) :
    ∃ st1 : AppState,
      get_data st e kw false none fs = .ok ⟨st1, emptyPayload, [e]⟩ ∧
        st1.credits_used = st.credits_used + costOf e ∧
        alookup (fingerprint e kw) st1.cache = some emptyPayload ∧
        ∀ (resp2 : Option Payload) (fs2 : FS),
          get_data st1 e kw false resp2 fs2 = .ok ⟨st1, emptyPayload, []⟩ := by
  refine ⟨save_cache_to_file
      { st with
        credits_used := st.credits_used + costOf e
        cache := ainsert (fingerprint e kw) emptyPayload st.cache }, ?_, ?_, ?_, ?_⟩
  · rw [get_data_eq_miss_none hmiss, get_data_miss_live hen hmode hkey, liveFetch_known he]
    rfl
  · simp [save_cache_to_file]
  · simp [save_cache_to_file, alookup_ainsert_self]
  · intro resp2 fs2
    apply get_data_eq_hit
    simp [save_cache_to_file, alookup_ainsert_self]

/-- Fresh live session used by C2. -/
def stW2 : AppState :=
  ⟨some Mode.live, some "vrl_key", 0, [],
    [("trends", true), ("hashtags", true), ("videos", true)], none, 0⟩

/-- Parameters of the C2 scenario. -/
def kwV : Params := [("limit", JVal.jnum 20)]

/-- Concrete outcome of the timed-out videos access. -/
def gd2 : AccessResult :=
  match get_data stW2 "videos" kwV false none fsAbsent with
  | .ok a => a
  | .error _ => ⟨stW2, emptyPayload, []⟩

/-- Counterexample to C2 as stated: a timed-out remote call for "videos"
does return a payload with zero records, but the usage counter moves from 0
to 100 and the failure is cached, so the next access with the same arguments
(even one whose remote response would succeed) is served from the cache and
issues no remote call. -/
theorem claim_c2_counterexample :
    get_data stW2 "videos" kwV false none fsAbsent = .ok gd2 ∧
      gd2.ret = emptyPayload ∧
      stW2.credits_used = 0 ∧
      gd2.st.credits_used = 100 ∧
      alookup (fingerprint "videos" kwV) gd2.st.cache = some emptyPayload ∧
      get_data gd2.st "videos" kwV false (some payW) fsAbsent = .ok ⟨gd2.st, emptyPayload, []⟩ :=
  ⟨rfl, rfl, rfl, rfl, rfl, rfl⟩

/-- Witness for the amended C2 at a concrete input. -/
theorem claim_c2_witness :
    enabledOf stW2 "videos" = true ∧
      ∃ st1 : AppState,
        get_data stW2 "videos" kwV false none fsAbsent = .ok ⟨st1, emptyPayload, ["videos"]⟩ ∧
          st1.credits_used = stW2.credits_used + costOf "videos" ∧
          alookup (fingerprint "videos" kwV) st1.cache = some emptyPayload ∧
          ∀ (resp2 : Option Payload) (fs2 : FS),
            get_data st1 "videos" kwV false resp2 fs2 = .ok ⟨st1, emptyPayload, []⟩ :=
  ⟨rfl,
    claim_c2_failed_fetch_charged_and_cached stW2 "videos" kwV fsAbsent
      (Or.inr (Or.inr rfl)) rfl rfl rfl rfl⟩

/-! ### C3: mode switches clear the cache but keep the counter (correction) -/

/-- Amended C3: switching Mode (Live to Demo via "Switch to Demo", or Demo to
Live via "Go Live" in settings or the sidebar) clears every cache entry, so
any entry cached before the switch is no longer retrievable, but the usage
counter is left unchanged - it is not reset to 0. -/
theorem claim_c3_mode_switch_clears_cache_keeps_counter
    (st : AppState) (key k : String) :
    (switch_to_demo st).cache = [] ∧ alookup k (switch_to_demo st).cache = none ∧
      (switch_to_demo st).credits_used = st.credits_used ∧
      (go_live st key).cache = [] ∧ alookup k (go_live st key).cache = none ∧
      (go_live st key).credits_used = st.credits_used ∧
      (sidebar_go_live st key).cache = [] ∧
      (sidebar_go_live st key).credits_used = st.credits_used := by
  simp [switch_to_demo, go_live, sidebar_go_live, save_cache_to_file, alookup]

/-- Live-mode payload cached before the C3 mode switch. -/
def pay3 : Payload := ⟨1, [JVal.jstr "t"]⟩

/-- Fingerprint of the prior Live-mode "trends" entry. -/
def ck3 : String := fingerprint "trends" []

/-- Live session with 1234 credits used and a cached "trends" entry. -/
def stW3 : AppState :=
  ⟨some Mode.live, some "vrl_key", 1234, [(ck3, pay3)], [("trends", true)], none, 0⟩

/-- Counterexample to C3 as stated: switching from Live to Demo makes the
prior "trends" entry unretrievable, but the usage counter stays at 1234
instead of being reset to 0. -/
theorem claim_c3_counterexample :
    alookup ck3 stW3.cache = some pay3 ∧
      alookup ck3 (switch_to_demo stW3).cache = none ∧
      (switch_to_demo stW3).credits_used = 1234 ∧
      ¬(switch_to_demo stW3).credits_used = 0 :=
  ⟨rfl, rfl, rfl, by decide⟩

/-! ### C7: invalidation removes by substring match on keys (correction) -/

theorem listStarts_self_append (l t : List Char) : listStarts l (l ++ t) = true := by
  induction l with
  | nil => rfl
  | cons a as ih => simp [listStarts, ih]

theorem listSub_self_append (l t : List Char) : listSub l (l ++ t) = true := by
  cases l with
  | nil => cases t <;> simp [listSub, listStarts, List.isEmpty]
  | cons a as => simp [listSub, listStarts, listStarts_self_append]

theorem str_data_append (a b : String) : (a ++ b).data = a.data ++ b.data := by
  cases a
  cases b
  rfl

/-- Every get_data cache key starts with its category name, hence contains
it as a substring. -/
theorem strContains_fingerprint (e : String) (p : Params) :
    strContains (fingerprint e p) e = true := by
  unfold strContains fingerprint
  rw [str_data_append, str_data_append, List.append_assoc]
  exact listSub_self_append _ _

theorem alookup_filter_contains_none {l : List (String × Payload)} {k tk : String}
    (hk : strContains k tk = true) :
    alookup k (l.filter (fun kv => !(strContains kv.1 tk))) = none := by
  induction l with
  | nil => rfl
  | cons kv rest ih =>
    cases hp : strContains kv.1 tk with
    | true => simp [List.filter_cons, hp, ih]
    | false =>
      have hne : kv.1 ≠ k := by
        intro he
        rw [he, hk] at hp
        simp at hp
      simp [List.filter_cons, hp, alookup, hne, ih]

theorem alookup_filter_contains_keep {l : List (String × Payload)} {k tk : String}
    (hk : strContains k tk = false) :
    alookup k (l.filter (fun kv => !(strContains kv.1 tk))) = alookup k l := by
  induction l with
  | nil => rfl
  | cons kv rest ih =>
    cases hp : strContains kv.1 tk with
    | true =>
      have hne : kv.1 ≠ k := by
        intro he
        rw [he, hk] at hp
        simp at hp
      simp [List.filter_cons, hp, alookup, hne, ih]
    | false => simp [List.filter_cons, hp, alookup, ih]

theorem refresh_data_cache (st : AppState) (target : String) (h : target ≠ "All Data") :
    (refresh_data st target).cache =
      st.cache.filter (fun kv => !(strContains kv.1 (strLower target))) := by
  simp [refresh_data, h, save_cache_to_file]

/-- Amended C7: "Refresh Data" on a target deletes every cache entry whose
key contains the lowercased target name as a substring. A subsequent access
to that category with any parameters is therefore a cache miss that falls
through to the gate/fetch body, and every cache entry whose key does not
contain the target name survives unchanged; but an entry of another category
whose key mentions the target name (e.g. in a parameter value) is also
deleted, so the original frame condition fails in general. -/
theorem claim_c7_invalidate_by_substring
    (st : AppState) (target : String) (p : Params) (k : String)
    (h : target ≠ "All Data") :
    alookup (fingerprint (strLower target) p) (refresh_data st target).cache = none ∧
      (∀ (resp : Option Payload) (fs : FS),
        get_data (refresh_data st target) (strLower target) p false resp fs =
          get_data_miss (refresh_data st target) (strLower target)
            (fingerprint (strLower target) p) resp fs) ∧
      (strContains k (strLower target) = false →
        alookup k (refresh_data st target).cache = alookup k st.cache) := by
  have hc := refresh_data_cache st target h
  have hnone : alookup (fingerprint (strLower target) p) (refresh_data st target).cache = none := by
    rw [hc]
    exact alookup_filter_contains_none (strContains_fingerprint _ _)
  refine ⟨hnone, fun resp fs => get_data_eq_miss_none hnone, fun hk => ?_⟩
  rw [hc]
  exact alookup_filter_contains_keep hk

/-- Payload of a "videos" cache entry whose parameters mention "trends". -/
def pay7 : Payload := ⟨2, [JVal.jstr "v"]⟩

/-- Cache key of a "videos" access with parameter niche="trends". -/
def ck7 : String := fingerprint "videos" [("niche", JVal.jstr "trends")]

/-- Demo session holding only that "videos" entry. -/
def stW7 : AppState := ⟨some Mode.demo, none, 0, [(ck7, pay7)], [], none, 0⟩

/-- Counterexample to C7 as stated: invalidating "Trends" also deletes a
cache entry that belongs to the category "videos", because its serialized
parameters contain the substring "trends"; so entries of other categories do
not all remain present. -/
theorem claim_c7_counterexample :
    alookup ck7 stW7.cache = some pay7 ∧
      strContains ck7 "trends" = true ∧
      strLower "Trends" = "trends" ∧
      alookup ck7 (refresh_data stW7 "Trends").cache = none :=
  ⟨rfl, by decide, by decide, by decide⟩

/-- Witness for the amended C7 at a concrete input. -/
theorem claim_c7_witness :
    ("Hashtags" : String) ≠ "All Data" ∧
      strContains ck7 (strLower "Hashtags") = false ∧
      alookup (fingerprint (strLower "Hashtags") []) (refresh_data stW7 "Hashtags").cache = none ∧
      alookup ck7 (refresh_data stW7 "Hashtags").cache = alookup ck7 stW7.cache :=
  ⟨by decide, by decide,
    (claim_c7_invalidate_by_substring stW7 "Hashtags" [] ck7 (by decide)).1,
    (claim_c7_invalidate_by_substring stW7 "Hashtags" [] ck7 (by decide)).2.2 (by decide)⟩

/-! ### C8: offline reads cache without charging, but never persist (correction) -/

/-- Amended C8: for an enabled category on a cache miss without live
credentials, the offline result is stored in the cache, the usage counter is
unchanged, and the payload is returned - but the durable snapshot is NOT
rewritten: the offline branch of get_data does not call save_cache_to_file,
so this cache mutation is not persisted. -/
theorem claim_c8_offline_read_cached_unmetered_not_persisted
    (st : AppState) (e : String) (kw : Params) (resp : Option Payload) (fs : FS) (d : Payload)
    (hen : enabledOf st e = true)
    (hnl : ¬(st.mode = some Mode.live ∧ keyTruthy st.virlo_api_key = true))
    (hmiss : alookup (fingerprint e kw) st.cache = none)
    (hld : load_demo fs (demoFile e) = .ok d) :
    get_data st e kw false resp fs =
        .ok ⟨{ st with cache := ainsert (fingerprint e kw) d st.cache }, d, []⟩ ∧
      alookup (fingerprint e kw) (ainsert (fingerprint e kw) d st.cache) = some d ∧
      ({ st with cache := ainsert (fingerprint e kw) d st.cache } : AppState).credits_used =
        st.credits_used ∧
      ({ st with cache := ainsert (fingerprint e kw) d st.cache } : AppState).snapshot =
        st.snapshot ∧
      ({ st with cache := ainsert (fingerprint e kw) d st.cache } : AppState).writes =
        st.writes := by
  refine ⟨?_, alookup_ainsert_self _ _ _, rfl, rfl, rfl⟩
  rw [get_data_eq_miss_none hmiss, get_data_miss_offline hen hnl hld]

/-- Parsed content of the trends demo file used by C8 and C10. -/
def pay8 : Payload := ⟨4, [JVal.jstr "demo"]⟩

/-- Filesystem where only trends.json exists and parses to pay8. -/
def fs8 : FS := fun f => if f = "trends.json" then some (some pay8) else none

/-- Demo session with a stale durable snapshot on disk. -/
def stW8 : AppState := ⟨some Mode.demo, none, 0, [], [], some ⟨[], 0⟩, 5⟩

/-- Concrete outcome of the offline trends access. -/
def gd8 : AccessResult :=
  match get_data stW8 "trends" [] false none fs8 with
  | .ok a => a
  | .error _ => ⟨stW8, emptyPayload, []⟩

/-- Counterexample to C8 as stated: the offline read mutates the in-memory
cache, yet the write counter is unchanged and the durable snapshot still
holds its pre-access (now stale) content, so the snapshot was not
rewritten after this mutation. -/
theorem claim_c8_counterexample :
    get_data stW8 "trends" [] false none fs8 = .ok gd8 ∧
      gd8.ret = pay8 ∧
      ¬gd8.st.cache = stW8.cache ∧
      gd8.st.writes = stW8.writes ∧
      gd8.st.snapshot = stW8.snapshot ∧
      ¬gd8.st.snapshot = some ⟨gd8.st.cache, gd8.st.credits_used⟩ :=
  ⟨rfl, rfl, by decide, rfl, rfl, by decide⟩

/-- Witness for the amended C8 at a concrete input. -/
theorem claim_c8_witness :
    enabledOf stW8 "trends" = true ∧
      load_demo fs8 (demoFile "trends") = .ok pay8 ∧
      get_data stW8 "trends" [] false none fs8 =
        .ok ⟨{ stW8 with cache := ainsert (fingerprint "trends" []) pay8 stW8.cache },
          pay8, []⟩ ∧
      ({ stW8 with cache := ainsert (fingerprint "trends" []) pay8 stW8.cache } :
          AppState).writes = stW8.writes :=
  ⟨rfl, rfl,
    (claim_c8_offline_read_cached_unmetered_not_persisted stW8 "trends" [] none fs8 pay8
      rfl (by decide) rfl rfl).1,
    (claim_c8_offline_read_cached_unmetered_not_persisted stW8 "trends" [] none fs8 pay8
      rfl (by decide) rfl rfl).2.2.2.2⟩

/-! ### C9: a missing demo file is empty, an unreadable one raises (correction) -/

/-- Amended C9: reading the offline dataset when its file is absent returns
the empty normalized payload without error; reading a file that is present
but unreadable or not valid JSON raises (json.load's error propagates to the
caller) instead of returning an empty payload. -/
theorem claim_c9_absent_demo_empty_unreadable_raises :
    (∀ (fs : FS) (f : String), fs f = none → load_demo fs f = .ok emptyPayload) ∧
      (∀ (fs : FS) (f : String) (d : Payload), fs f = some (some d) → load_demo fs f = .ok d) ∧
      (∀ (fs : FS) (f : String), fs f = some none →
        load_demo fs f = .error "json decode error") := by
  refine ⟨fun fs f h => ?_, fun fs f d h => ?_, fun fs f h => ?_⟩ <;> simp [load_demo, h]

/-- Filesystem where every file is present but unreadable. -/
def fsBad : FS := fun _ => some none

/-- Counterexample to C9 as stated: a present-but-unreadable demo file makes
load_demo raise rather than return the empty payload. -/
theorem claim_c9_counterexample :
    load_demo fsBad "trends.json" = .error "json decode error" ∧
      ¬load_demo fsBad "trends.json" = .ok emptyPayload :=
  ⟨rfl, fun h => Except.noConfusion h⟩

/-- Witness for the amended C9 at concrete inputs. -/
theorem claim_c9_witness :
    fsAbsent "trends.json" = none ∧
      load_demo fsAbsent "trends.json" = .ok emptyPayload ∧
      fsBad "hashtags.json" = some none ∧
      load_demo fsBad "hashtags.json" = .error "json decode error" :=
  ⟨rfl, claim_c9_absent_demo_empty_unreadable_raises.1 fsAbsent "trends.json" rfl,
    rfl, claim_c9_absent_demo_empty_unreadable_raises.2.2 fsBad "hashtags.json" rfl⟩

/-! ### C10: unknown categories fall back to the trends demo file -/

/-- C10: for a category name outside {trends, hashtags, videos} that is
enabled (unknown names default to enabled) and not cached, an access without
live credentials returns the contents of the trends offline dataset and
caches it under the unknown category's fingerprint; the same access with
live credentials returns (and caches) the empty payload without issuing any
remote call. -/
theorem claim_c10_unknown_category_reads_trends_demo
    (st : AppState) (c : String) (p : Params) (resp : Option Payload) (fs : FS) (d : Payload)
    (h1 : c ≠ "trends") (h2 : c ≠ "hashtags") (h3 : c ≠ "videos")
    (hen : enabledOf st c = true)
    (hmiss : alookup (fingerprint c p) st.cache = none) :
    (¬(st.mode = some Mode.live ∧ keyTruthy st.virlo_api_key = true) →
      load_demo fs "trends.json" = .ok d →
      get_data st c p false resp fs =
        .ok ⟨{ st with cache := ainsert (fingerprint c p) d st.cache }, d, []⟩) ∧
      (st.mode = some Mode.live → keyTruthy st.virlo_api_key = true →
        get_data st c p false resp fs =
          .ok ⟨save_cache_to_file
                { st with cache := ainsert (fingerprint c p) emptyPayload st.cache },
              emptyPayload, []⟩) := by
  have hdf : demoFile c = "trends.json" := by simp [demoFile, h1, h2, h3]
  constructor
  · intro hnl hld
    rw [get_data_eq_miss_none hmiss, get_data_miss_offline hen hnl (hdf.symm ▸ hld)]
  · intro hm hk
    have hlive : liveFetch st c resp = (st, emptyPayload, []) := by
      simp [liveFetch, h1, h2, h3]
    rw [get_data_eq_miss_none hmiss, get_data_miss_live hen hm hk, hlive]

/-- Demo session with no enabled_endpoints overrides. -/
def stW10d : AppState := ⟨some Mode.demo, none, 0, [], [], none, 0⟩

/-- Live session with no enabled_endpoints overrides. -/
def stW10l : AppState := ⟨some Mode.live, some "vrl_key", 0, [], [], none, 0⟩

/-- Witness for C10 at the unknown category name "niches". -/
theorem claim_c10_witness :
    enabledOf stW10d "niches" = true ∧
      load_demo fs8 "trends.json" = .ok pay8 ∧
      ¬pay8 = emptyPayload ∧
      get_data stW10d "niches" [] false none fs8 =
        .ok ⟨{ stW10d with cache := ainsert (fingerprint "niches" []) pay8 stW10d.cache },
          pay8, []⟩ ∧
      get_data stW10l "niches" [] false none fs8 =
        .ok ⟨save_cache_to_file
              { stW10l with cache := ainsert (fingerprint "niches" []) emptyPayload stW10l.cache },
            emptyPayload, []⟩ :=
  ⟨rfl, rfl, by decide,
    (claim_c10_unknown_category_reads_trends_demo stW10d "niches" [] none fs8 pay8
      (by decide) (by decide) (by decide) rfl rfl).1 (by decide) rfl,
    (claim_c10_unknown_category_reads_trends_demo stW10l "niches" [] none fs8 pay8
      (by decide) (by decide) (by decide) rfl rfl).2 rfl rfl⟩
